import Mathlib

/-!
Verification development for the job_search repository.

Shallow embedding of:
- the pydantic data model and its validation (src/job_search/models.py),
- the CLI merge logic of the job_search command (src/job_search/cli.py),
- the JobSpy and resume-generator tools (src/job_search/tools/),
- the four-step pipeline flow (src/job_search/flows/jod_search.py).

Raw JSON documents are embedded as structures of Option-typed fields:
an outer `Option` records whether the key is present in the document, and
for fields whose pydantic type is `Optional[str]` an inner `Option` records
JSON null versus a string value.  Python exceptions are embedded as
`Except`: a collaborator that may raise is a value of type
`Except String α`, and a caught exception is the `.error` branch.
-/

namespace JobSearch

/-! ## Validated data model (src/job_search/models.py) -/

structure Project where
  name : String
  description : String
  technologies : List String
deriving Repr, DecidableEq

structure Experience where
  title : String
  company : String
  duration : String
  description : String
  projects : List Project
deriving Repr, DecidableEq

structure Education where
  degree : String
  school : String
  year : String
deriving Repr, DecidableEq

structure UserProfile where
  name : String
  email : String
  phone : Option String
  location : Option String
  linkedin : Option String
  skills : List String
  experience : List Experience
  education : List Education
  certifications : List String
  summary : Option String
deriving Repr, DecidableEq

structure JobSearchParams where
  search_term : String
  location : String
  results_wanted : Int
  fine_tune_search_string : Option String
deriving Repr, DecidableEq

structure JobSearchConfig where
  user_profile : UserProfile
  job_search_params : JobSearchParams
deriving Repr, DecidableEq

/-! ## Raw JSON documents (the mappings fed to the pydantic constructors) -/

structure RawProject where
  name : Option String
  description : Option String
  technologies : Option (List String)
deriving Repr, DecidableEq

structure RawExperience where
  title : Option String
  company : Option String
  duration : Option String
  description : Option String
  projects : Option (List RawProject)
deriving Repr, DecidableEq

structure RawEducation where
  degree : Option String
  school : Option String
  year : Option String
deriving Repr, DecidableEq

structure RawUserProfile where
  name : Option String
  email : Option String
  phone : Option (Option String)
  location : Option (Option String)
  linkedin : Option (Option String)
  skills : Option (List String)
  experience : Option (List RawExperience)
  education : Option (List RawEducation)
  certifications : Option (List String)
  summary : Option (Option String)
deriving Repr, DecidableEq

structure RawJobSearchParams where
  search_term : Option String
  location : Option String
  results_wanted : Option Int
  fine_tune_search_string : Option (Option String)
deriving Repr, DecidableEq

structure RawJobSearchConfig where
  user_profile : Option RawUserProfile
  job_search_params : Option RawJobSearchParams
deriving Repr, DecidableEq

/-- The empty mapping `{}`. -/
def emptyRawUserProfile : RawUserProfile :=
  ⟨none, none, none, none, none, none, none, none, none, none⟩

/-- The empty mapping `{}` (used for `config_data.get("job_search_params", {})`). -/
def emptyRawJobSearchParams : RawJobSearchParams :=
  ⟨none, none, none, none⟩

/-! ## Validation (pydantic semantics: all field errors are accumulated) -/

/-- One entry of pydantic `ValidationError.errors()`: a field path and a message. -/
structure FieldError where
  loc : List String
  msg : String
deriving Repr, DecidableEq

instance {ε α : Type} [DecidableEq ε] [DecidableEq α] : DecidableEq (Except ε α) :=
  fun a b =>
    match a, b with
    | .ok x, .ok y =>
      if h : x = y then .isTrue (by rw [h]) else .isFalse (by simp [h])
    | .ok _, .error _ => .isFalse (by simp)
    | .error _, .ok _ => .isFalse (by simp)
    | .error x, .error y =>
      if h : x = y then .isTrue (by rw [h]) else .isFalse (by simp [h])

/-- Split a character list at every occurrence of `c` (same behaviour as
Python `str.split` with a one-character separator: an empty input yields one
empty piece). -/
def splitCharAux (c : Char) : List Char → List Char → List (List Char)
  | [], acc => [acc.reverse]
  | x :: xs, acc =>
    if x = c then acc.reverse :: splitCharAux c xs []
    else splitCharAux c xs (x :: acc)

/-- Python `s.split(c)` as a list of strings. -/
def splitOnChar (c : Char) (s : String) : List String :=
  (splitCharAux c s.toList []).map String.mk

/-- Modelled from the spec: pydantic `EmailStr` is third-party library code not
in this repository; the spec says an email lacking an "@" and a domain segment
is rejected and a syntactically valid address is accepted.  We model the check
as: exactly one "@", a non-empty local part, and a domain containing a dot
with non-empty parts around it. -/
def emailValid (s : String) : Bool :=
  match splitOnChar '@' s with
  | [l, d] =>
    l ≠ "" && d ≠ "" && (splitOnChar '.' d).length ≥ 2
      && (splitOnChar '.' d).all (· ≠ "")
  | _ => false

/-- Errors for one `Project` mapping (all fields of `Project` are required
strings except `technologies`, which defaults to `[]`). -/
def projectErrors (path : List String) (r : RawProject) : List FieldError :=
  (match r.name with
   | none => [⟨path ++ ["name"], "Field required"⟩]
   | some _ => [])
  ++ (match r.description with
   | none => [⟨path ++ ["description"], "Field required"⟩]
   | some _ => [])

/-- Errors for a list of `Project` mappings, locs carrying the item index. -/
def projectItemsErrors (path : List String) (i : Nat) : List RawProject → List FieldError
  | [] => []
  | x :: xs => projectErrors (path ++ [toString i]) x ++ projectItemsErrors path (i + 1) xs

/-- Errors for one `Experience` mapping. -/
def experienceErrors (path : List String) (r : RawExperience) : List FieldError :=
  (match r.title with
   | none => [⟨path ++ ["title"], "Field required"⟩]
   | some _ => [])
  ++ (match r.company with
   | none => [⟨path ++ ["company"], "Field required"⟩]
   | some _ => [])
  ++ (match r.duration with
   | none => [⟨path ++ ["duration"], "Field required"⟩]
   | some _ => [])
  ++ (match r.description with
   | none => [⟨path ++ ["description"], "Field required"⟩]
   | some _ => [])
  ++ projectItemsErrors (path ++ ["projects"]) 0 (r.projects.getD [])

/-- Errors for a list of `Experience` mappings. -/
def experienceItemsErrors (path : List String) (i : Nat) : List RawExperience → List FieldError
  | [] => []
  | x :: xs => experienceErrors (path ++ [toString i]) x ++ experienceItemsErrors path (i + 1) xs

/-- Errors for one `Education` mapping. -/
def educationErrors (path : List String) (r : RawEducation) : List FieldError :=
  (match r.degree with
   | none => [⟨path ++ ["degree"], "Field required"⟩]
   | some _ => [])
  ++ (match r.school with
   | none => [⟨path ++ ["school"], "Field required"⟩]
   | some _ => [])
  ++ (match r.year with
   | none => [⟨path ++ ["year"], "Field required"⟩]
   | some _ => [])

/-- Errors for a list of `Education` mappings. -/
def educationItemsErrors (path : List String) (i : Nat) : List RawEducation → List FieldError
  | [] => []
  | x :: xs => educationErrors (path ++ [toString i]) x ++ educationItemsErrors path (i + 1) xs

/-- Errors for a `UserProfile` mapping: `name` and `email` are required,
`email` must be a valid address, nested lists are validated item by item.
Note pydantic places no non-empty constraint on `name` (`name: str = Field(...)`
only requires presence). -/
def userProfileErrors (path : List String) (r : RawUserProfile) : List FieldError :=
  (match r.name with
   | none => [⟨path ++ ["name"], "Field required"⟩]
   | some _ => [])
  ++ (match r.email with
   | none => [⟨path ++ ["email"], "Field required"⟩]
   | some e =>
     if emailValid e then [] else
       [⟨path ++ ["email"], "value is not a valid email address"⟩])
  ++ experienceItemsErrors (path ++ ["experience"]) 0 (r.experience.getD [])
  ++ educationItemsErrors (path ++ ["education"]) 0 (r.education.getD [])

/-- Errors for a `JobSearchParams` mapping: `results_wanted` carries
`ge=1, le=100` (models.py line 118-120); every other field is unconstrained. -/
def jobSearchParamsErrors (path : List String) (r : RawJobSearchParams) : List FieldError :=
  match r.results_wanted with
  | none => []
  | some n =>
    (if n < 1 then
       [⟨path ++ ["results_wanted"], "Input should be greater than or equal to 1"⟩]
     else [])
    ++ (if n > 100 then
       [⟨path ++ ["results_wanted"], "Input should be less than or equal to 100"⟩]
     else [])

/-- Errors for a `JobSearchConfig` mapping: both sub-objects are required. -/
def configErrors (r : RawJobSearchConfig) : List FieldError :=
  (match r.user_profile with
   | none => [⟨["user_profile"], "Field required"⟩]
   | some up => userProfileErrors ["user_profile"] up)
  ++ (match r.job_search_params with
   | none => [⟨["job_search_params"], "Field required"⟩]
   | some jp => jobSearchParamsErrors ["job_search_params"] jp)

/-! ## Building the validated models (defaults as in models.py) -/

def buildProject (r : RawProject) : Project :=
  { name := r.name.getD ""
    description := r.description.getD ""
    technologies := r.technologies.getD [] }

def buildExperience (r : RawExperience) : Experience :=
  { title := r.title.getD ""
    company := r.company.getD ""
    duration := r.duration.getD ""
    description := r.description.getD ""
    projects := (r.projects.getD []).map buildProject }

def buildEducation (r : RawEducation) : Education :=
  { degree := r.degree.getD ""
    school := r.school.getD ""
    year := r.year.getD "" }

def buildUserProfile (r : RawUserProfile) : UserProfile :=
  { name := r.name.getD ""
    email := r.email.getD ""
    phone := r.phone.join
    location := r.location.join
    linkedin := r.linkedin.join
    skills := r.skills.getD []
    experience := (r.experience.getD []).map buildExperience
    education := (r.education.getD []).map buildEducation
    certifications := r.certifications.getD []
    summary := r.summary.join }

def buildJobSearchParams (r : RawJobSearchParams) : JobSearchParams :=
  { search_term := r.search_term.getD "Software Developer"
    location := r.location.getD "Remote"
    results_wanted := r.results_wanted.getD 10
    fine_tune_search_string := r.fine_tune_search_string.join }

def buildConfig (r : RawJobSearchConfig) : JobSearchConfig :=
  { user_profile := buildUserProfile (r.user_profile.getD emptyRawUserProfile)
    job_search_params :=
      buildJobSearchParams (r.job_search_params.getD emptyRawJobSearchParams) }

/-- Embeds `UserProfile(**data)`: succeed with the validated model, or fail with the
full list of field errors. -/
def parseUserProfile (r : RawUserProfile) : Except (List FieldError) UserProfile :=
  if userProfileErrors [] r = [] then .ok (buildUserProfile r)
  else .error (userProfileErrors [] r)

/-- Embeds `JobSearchParams(**data)`. -/
def parseJobSearchParams (r : RawJobSearchParams) : Except (List FieldError) JobSearchParams :=
  if jobSearchParamsErrors [] r = [] then .ok (buildJobSearchParams r)
  else .error (jobSearchParamsErrors [] r)

/-- Embeds `JobSearchConfig(**config_data)`. -/
def parseConfig (r : RawJobSearchConfig) : Except (List FieldError) JobSearchConfig :=
  if configErrors r = [] then .ok (buildConfig r)
  else .error (configErrors r)

/-! ## Serialization (`model_dump` followed by `json.dump`): every field is
emitted, absent optional fields as JSON null. -/

def dumpProject (p : Project) : RawProject :=
  ⟨some p.name, some p.description, some p.technologies⟩

def dumpExperience (e : Experience) : RawExperience :=
  ⟨some e.title, some e.company, some e.duration, some e.description,
   some (e.projects.map dumpProject)⟩

def dumpEducation (e : Education) : RawEducation :=
  ⟨some e.degree, some e.school, some e.year⟩

def dumpUserProfile (p : UserProfile) : RawUserProfile :=
  ⟨some p.name, some p.email, some p.phone, some p.location, some p.linkedin,
   some p.skills, some (p.experience.map dumpExperience),
   some (p.education.map dumpEducation), some p.certifications, some p.summary⟩

def dumpJobSearchParams (p : JobSearchParams) : RawJobSearchParams :=
  ⟨some p.search_term, some p.location, some p.results_wanted,
   some p.fine_tune_search_string⟩

def dumpConfig (c : JobSearchConfig) : RawJobSearchConfig :=
  ⟨some (dumpUserProfile c.user_profile),
   some (dumpJobSearchParams c.job_search_params)⟩

/-! ## CLI merge logic of the job_search command (src/job_search/cli.py 79-149)

The click options default to `None` (here `none`) except `--results-wanted`,
which has `default=10`.  Python truthiness on a string option: `none` and the
empty string are falsy. -/

/-- The option values click hands to `job_search`.  `experience` and
`education` are JSON-string flags; we embed them already parsed (their
json.loads failure path aborts before the merge and is not modelled here). -/
structure CliFlags where
  name : Option String
  email : Option String
  phone : Option String
  location : Option String
  linkedin : Option String
  skills : Option String
  summary : Option String
  experience : Option (List RawExperience)
  education : Option (List RawEducation)
  certifications : Option String
  search_term : Option String
  search_location : Option String
  results_wanted : Int
deriving Repr, DecidableEq

/-- Flags where nothing was passed on the command line. -/
def noFlags : CliFlags :=
  ⟨none, none, none, none, none, none, none, none, none, none, none, none, 10⟩

/-- Embeds `if flag: data[key] = flag` for a plain string key. -/
def setIfTruthy (flag : Option String) (cur : Option String) : Option String :=
  match flag with
  | some s => if s = "" then cur else some s
  | none => cur

/-- Embeds `if flag: data[key] = flag` for a key whose raw slot also models JSON null. -/
def setIfTruthyOpt (flag : Option String) (cur : Option (Option String)) :
    Option (Option String) :=
  match flag with
  | some s => if s = "" then cur else some (some s)
  | none => cur

/-- Python `str.strip` on the comma-separated list elements.  Modelled on the
character list (same semantics as stripping ASCII whitespace at both ends). -/
def pyStrip (s : String) : String :=
  String.mk ((s.toList.dropWhile Char.isWhitespace).reverse.dropWhile
    Char.isWhitespace).reverse

/-- Embeds `[x.strip() for x in s.split(",")]`. -/
def splitCommaStrip (s : String) : List String :=
  (splitOnChar ',' s).map pyStrip

/-- Embeds cli.py 107-141: overwrite profile keys from the individual flags. -/
def applyProfileFlags (base : RawUserProfile) (f : CliFlags) : RawUserProfile :=
  { base with
    name := setIfTruthy f.name base.name
    email := setIfTruthy f.email base.email
    phone := setIfTruthyOpt f.phone base.phone
    location := setIfTruthyOpt f.location base.location
    linkedin := setIfTruthyOpt f.linkedin base.linkedin
    summary := setIfTruthyOpt f.summary base.summary
    skills :=
      match f.skills with
      | some s => if s = "" then base.skills else some (splitCommaStrip s)
      | none => base.skills
    certifications :=
      match f.certifications with
      | some s => if s = "" then base.certifications else some (splitCommaStrip s)
      | none => base.certifications
    experience :=
      match f.experience with
      | some xs => some xs
      | none => base.experience
    education :=
      match f.education with
      | some xs => some xs
      | none => base.education }

/-- Embeds cli.py 143-149: overwrite parameter keys from the flags.  Note
`--results-wanted` is an int with default 10, guarded by `if results_wanted:`,
so it is copied exactly when it is nonzero. -/
def applyParamFlags (base : RawJobSearchParams) (f : CliFlags) : RawJobSearchParams :=
  { base with
    search_term := setIfTruthy f.search_term base.search_term
    location := setIfTruthy f.search_location base.location
    results_wanted :=
      if f.results_wanted ≠ 0 then some f.results_wanted else base.results_wanted }

/-- The document supplied via `--user-profile-json` after JSON decoding:
either a mapping with a "user_profile" key (a full config document), any other
mapping (taken as a bare profile), or no flag at all. -/
inductive ProfileJsonInput where
  | absent
  | profile (p : RawUserProfile)
  | config (p : RawUserProfile) (jp : Option RawJobSearchParams)
deriving Repr, DecidableEq

/-- Embeds cli.py 79-102: the base mappings built from the JSON document. -/
def initialMaps : ProfileJsonInput → RawUserProfile × RawJobSearchParams
  | .absent => (emptyRawUserProfile, emptyRawJobSearchParams)
  | .profile p => (p, emptyRawJobSearchParams)
  | .config p jp => (p, jp.getD emptyRawJobSearchParams)

/-- Embeds cli.py 79-149: the raw mappings the job_search command passes to the
pydantic constructors — JSON base first, flags written over it. -/
def jobSearchMerge (json : ProfileJsonInput) (f : CliFlags) :
    RawUserProfile × RawJobSearchParams :=
  let m := initialMaps json
  (applyProfileFlags m.1 f, applyParamFlags m.2 f)

/-- Embeds cli.py 183-184: one echoed line per entry of `e.errors()`, printing
`error["loc"][0]`. -/
def echoedErrorLinesJobSearch (es : List FieldError) : List String :=
  es.map (fun e => "  - " ++ e.loc.headD "" ++ ": " ++ e.msg)

/-- Embeds cli.py 232-233: one echoed line per entry, printing the dotted path. -/
def echoedErrorLinesFromFile (es : List FieldError) : List String :=
  es.map (fun e => "  - " ++ String.intercalate "." e.loc ++ ": " ++ e.msg)

/-! ## JobSpy tool (src/job_search/tools/jobspy_tool.py)

The external scraper `scrape_jobs` is the collaborator: we embed its outcome
as `Except String (List JobRecord)` — `.error e` is a raised exception with
message `e`, `.ok rows` the returned data frame.  `_run` wraps its whole body
in try/except and returns a plain string either way. -/

/-- One row of the scraped data frame; every column access in the source goes
through `job.get(key, default)`, so each column is an optional value. -/
structure JobRecord where
  title : Option String
  company : Option String
  location : Option String
  job_url : Option String
  description : Option String
  min_amount : Option String
  max_amount : Option String
  date_posted : Option String
  site : Option String
deriving Repr, DecidableEq

/-- Embeds jobspy_tool.py 63-65: the description entry of `job_info`.  The length
test uses default "" while the displayed value uses default "N/A"; slicing is
by characters. -/
def truncatedDescription (d : Option String) : String :=
  if (d.getD "").length > 500 then
    String.mk ((d.getD "N/A").toList.take 500) ++ "..."
  else d.getD "N/A"

/-- Embeds jobspy_tool.py 75-87: one formatted block of the digest (1-based index). -/
def formatJobListing (i : Nat) (j : JobRecord) : String :=
  "Job " ++ toString i ++ ":\n"
  ++ "Title: " ++ j.title.getD "N/A" ++ "\n"
  ++ "Company: " ++ j.company.getD "N/A" ++ "\n"
  ++ "Location: " ++ j.location.getD "N/A" ++ "\n"
  ++ "Salary: $" ++ j.min_amount.getD "N/A" ++ " - $" ++ j.max_amount.getD "N/A" ++ "\n"
  ++ "Posted: " ++ j.date_posted.getD "N/A" ++ "\n"
  ++ "Description: " ++ truncatedDescription j.description ++ "\n"
  ++ "URL: " ++ j.job_url.getD "N/A" ++ "\n"
  ++ "Source: " ++ j.site.getD "N/A" ++ "\n"
  ++ String.mk (List.replicate 50 '-') ++ "\n\n"

/-- The enumerated blocks, `enumerate(job_listings, 1)`. -/
def formatJobListings (i : Nat) : List JobRecord → String
  | [] => ""
  | j :: js => formatJobListing i j ++ formatJobListings (i + 1) js

/-- Embeds jobspy_tool.py 73-89: the full digest for a non-empty result set. -/
def formatJobsOutput (jobs : List JobRecord) : String :=
  "Found " ++ toString jobs.length ++ " job listings:\n\n" ++ formatJobListings 1 jobs

/-- Embeds jobspy_tool.py 42-92: `JobSpyTool._run`.  The collaborator outcome is the
argument; the try/except converts a raised exception into a returned string,
so the result type is `String`, never a propagated exception. -/
def jobSpyToolRun (scrape : Except String (List JobRecord)) : String :=
  match scrape with
  | .error e => "Error searching for jobs: " ++ e
  | .ok jobs =>
    if jobs.isEmpty then "No jobs found matching the search criteria."
    else formatJobsOutput jobs

/-! ## Resume generator tool (src/job_search/tools/resume_generator_tool.py)

`user_info` is a dict accessed only through `.get`, so it is embedded as a
structure of optional scalars plus lists (the `isinstance` fallbacks for
non-list values are unreachable in this typed embedding).  The docx document
is embedded as the list of its paragraph texts; the save effect (the raise
site of the body) is a collaborator of type `List String → Except String Unit`. -/

structure ResumeExpEntry where
  title : Option String
  company : Option String
  duration : Option String
  description : Option String
deriving Repr, DecidableEq

structure ResumeEduEntry where
  degree : Option String
  school : Option String
  year : Option String
deriving Repr, DecidableEq

structure ResumeUserInfo where
  name : Option String
  email : Option String
  phone : Option String
  location : Option String
  linkedin : Option String
  summary : Option String
  skills : List String
  experience : List ResumeExpEntry
  education : List ResumeEduEntry
  certifications : List String
deriving Repr, DecidableEq

/-- Embeds `if user_info.get(key):` for the contact line: truthy values only. -/
def truthyToList (o : Option String) : List String :=
  match o with
  | some s => if s = "" then [] else [s]
  | none => []

/-- Embeds resume_generator_tool.py 47-59: the contact line. -/
def contactLine (u : ResumeUserInfo) : String :=
  String.intercalate " | "
    (truthyToList u.email ++ truthyToList u.phone ++ truthyToList u.location
      ++ (truthyToList u.linkedin).map (fun l => "LinkedIn: " ++ l))

/-- Embeds resume_generator_tool.py 91-98: the paragraphs of one experience block. -/
def expParagraphs (e : ResumeExpEntry) : List String :=
  (e.title.getD "Position Title" ++ " - " ++ e.company.getD "Company Name"
      ++ "\n" ++ e.duration.getD "Duration")
  :: (match e.description with
      | some d => if d = "" then [] else ["• " ++ d]
      | none => [])

/-- Experience blocks, concatenated. -/
def expParagraphsAll : List ResumeExpEntry → List String
  | [] => []
  | e :: es => expParagraphs e ++ expParagraphsAll es

/-- Embeds resume_generator_tool.py 112-118: one education paragraph. -/
def eduParagraph (e : ResumeEduEntry) : String :=
  e.degree.getD "Degree" ++ " - " ++ e.school.getD "School Name"
  ++ (match e.year with
      | some y => if y = "" then "" else " (" ++ y ++ ")"
      | none => "")

/-- Embeds resume_generator_tool.py 120-125: certification bullets, section emitted
only when the list is non-empty. -/
def certParagraphs (cs : List String) : List String :=
  if cs.isEmpty then [] else "Certifications" :: cs.map (fun c => "• " ++ c)

/-- Embeds resume_generator_tool.py 43-125: the document as its paragraph texts. -/
def resumeDocParagraphs (u : ResumeUserInfo) : List String :=
  [u.name.getD "Your Name", contactLine u, "Professional Summary",
   u.summary.getD
     "Experienced professional with expertise in relevant technologies and strong problem-solving skills.",
   "Technical Skills", String.intercalate ", " u.skills,
   "Professional Experience"]
  ++ expParagraphsAll u.experience
  ++ ["Education"] ++ u.education.map eduParagraph
  ++ certParagraphs u.certifications

/-- Embeds resume_generator_tool.py 131: the success message. -/
def resumeSuccessMessage (filename : String) : String :=
  "Resume successfully generated and saved as \x27" ++ filename
  ++ "\x27 in the current directory. The resume has been tailored based on the job requirements analysis."

/-- Embeds resume_generator_tool.py 29-131: the try body — build the document, save
it (the effect that may raise), and return the success message. -/
def resumeGeneratorBody (u : ResumeUserInfo) (output_filename : String)
    (save : List String → Except String Unit) : Except String String := do
  let doc := resumeDocParagraphs u
  let _ ← save doc
  pure (resumeSuccessMessage output_filename)

/-- Embeds resume_generator_tool.py 26-134: `ResumeGeneratorTool._run`.  The whole
body is wrapped in try/except; a raised exception becomes the returned error
string.  `job_requirements` is accepted and unused, as in the source. -/
def resumeGeneratorRun (u : ResumeUserInfo) (_job_requirements : String)
    (output_filename : String) (save : List String → Except String Unit) : String :=
  match resumeGeneratorBody u output_filename save with
  | .ok msg => msg
  | .error e => "Error generating resume: " ++ e

/-! ## Pipeline flow (src/job_search/flows/jod_search.py)

`JobSearchState` carries two dict fields (embedded as the raw mappings; the
initial `{}` is the all-`none` mapping) and three string fields.  The crew
call inside `search_and_analyze_jobs` is the external collaborator; its
`result.raw` text is a parameter of the step. -/

structure JobSearchState where
  user_profile : RawUserProfile
  job_search_params : RawJobSearchParams
  job_listings : String
  skills_analysis : String
  resume_path : String
deriving Repr, DecidableEq

/-- The freshly created state (all pydantic defaults). -/
def initialJobSearchState : JobSearchState :=
  ⟨emptyRawUserProfile, emptyRawJobSearchParams, "", "", ""⟩

/-- Python dict truthiness for the profile mapping: `{}` is falsy. -/
def RawUserProfile.isEmptyMap (r : RawUserProfile) : Bool :=
  r = emptyRawUserProfile

/-- Python dict truthiness for the params mapping. -/
def RawJobSearchParams.isEmptyMap (r : RawJobSearchParams) : Bool :=
  r = emptyRawJobSearchParams

/-- Embeds jod_search.py 33-53: the built-in John Doe fallback profile. -/
def defaultFlowUserProfile : RawUserProfile :=
  { name := some "John Doe"
    email := some "john.doe@email.com"
    phone := none
    location := none
    linkedin := none
    skills := some ["Python", "Machine Learning", "Data Analysis"]
    experience := some
      [{ title := some "Data Scientist"
         company := some "Tech Corp"
         duration := some "2022-2024"
         description := some "Developed ML models and analyzed large datasets"
         projects := none }]
    education := some
      [{ degree := some "Master of Science in Computer Science"
         school := some "University of Technology"
         year := some "2022" }]
    certifications := none
    summary := some
      (some "Experienced data scientist with expertise in machine learning and data analysis") }

/-- Embeds jod_search.py 57-61: the built-in fallback search parameters. -/
def defaultFlowJobSearchParams : RawJobSearchParams :=
  { search_term := some "Data Scientist"
    location := some "Remote"
    results_wanted := some 10
    fine_tune_search_string := none }

/-- Embeds jod_search.py 31-53: the first if-statement of `collect_user_info`. -/
def collectProfileDefault (s : JobSearchState) : JobSearchState :=
  if s.user_profile.isEmptyMap then { s with user_profile := defaultFlowUserProfile }
  else s

/-- Embeds jod_search.py 55-61: the second if-statement of `collect_user_info`. -/
def collectParamsDefault (s : JobSearchState) : JobSearchState :=
  if s.job_search_params.isEmptyMap then
    { s with job_search_params := defaultFlowJobSearchParams }
  else s

/-- Embeds jod_search.py 24-61: `collect_user_info` — fill either dict with the
defaults when it is empty; touches no other state field. -/
def collect_user_info (s : JobSearchState) : JobSearchState :=
  collectParamsDefault (collectProfileDefault s)

/-- Embeds jod_search.py 63-86: `search_and_analyze_jobs` — run the crew (external
collaborator; `crewResult` is `result.raw`) and store it in
`skills_analysis`.  No other field is written; in particular `job_listings`
is not. -/
def search_and_analyze_jobs (crewResult : String) (s : JobSearchState) : JobSearchState :=
  { s with skills_analysis := crewResult }

/-- Embeds jod_search.py 88-96: `generate_personalized_resume` — unconditionally
record the constant artifact path. -/
def generate_personalized_resume (s : JobSearchState) : JobSearchState :=
  { s with resume_path := "personalized_resume.docx" }

/-- Embeds jod_search.py 98-111: `finalize_results` only prints; the state is not
changed. -/
def finalize_results (s : JobSearchState) : JobSearchState :=
  s

/-- The strictly linear chain collect → search/analyze → generate → finalize. -/
def runJobSearchFlow (crewResult : String) (s : JobSearchState) : JobSearchState :=
  finalize_results
    (generate_personalized_resume
      (search_and_analyze_jobs crewResult (collect_user_info s)))

/-! ## Concrete documents used by witnesses and counterexamples -/

/-- A JSON profile document carrying a location, for the flag-precedence
counterexample. -/
def locJsonProfile : RawUserProfile :=
  { emptyRawUserProfile with
    name := some "A", email := some "a@b.com", location := some (some "Paris") }

/-- Flags where only `--location ""` was passed. -/
def emptyLocationFlags : CliFlags :=
  { noFlags with location := some "" }

/-- Flags where only `--results-wanted 0` was passed. -/
def zeroResultsFlags : CliFlags :=
  { noFlags with results_wanted := 0 }

/-- A JSON params mapping carrying `results_wanted = 50`. -/
def fiftyResultsBase : RawJobSearchParams :=
  { emptyRawJobSearchParams with results_wanted := some 50 }

/-- A config document with an empty (but present) profile name, a valid email
and an out-of-range `results_wanted`. -/
def emptyNameBadCountDoc : RawJobSearchConfig :=
  ⟨some { emptyRawUserProfile with name := some "", email := some "a@b.com" },
   some { emptyRawJobSearchParams with results_wanted := some 200 }⟩

/-- A config document missing the email and carrying an out-of-range
`results_wanted`: two violations in distinct sub-models. -/
def missingEmailBadCountDoc : RawJobSearchConfig :=
  ⟨some { emptyRawUserProfile with name := some "A" },
   some { emptyRawJobSearchParams with results_wanted := some 200 }⟩

/-- A minimal valid config document. -/
def minimalConfigDoc : RawJobSearchConfig :=
  ⟨some { emptyRawUserProfile with name := some "Jane", email := some "jane@ex.com" },
   some emptyRawJobSearchParams⟩

/-- The model `minimalConfigDoc` validates to. -/
def minimalConfig : JobSearchConfig :=
  ⟨⟨"Jane", "jane@ex.com", none, none, none, [], [], [], [], none⟩,
   ⟨"Software Developer", "Remote", 10, none⟩⟩

/-! ## Round-trip lemmas (serialization inverts construction) -/

theorem buildProject_dumpProject (p : Project) : buildProject (dumpProject p) = p :=
  rfl

theorem buildEducation_dumpEducation (e : Education) :
    buildEducation (dumpEducation e) = e :=
  rfl

theorem buildExperience_dumpExperience (e : Experience) :
    buildExperience (dumpExperience e) = e := by
  cases e with
  | mk t c d ds ps =>
    simp [buildExperience, dumpExperience, List.map_map, Function.comp_def,
      buildProject_dumpProject]

theorem buildUserProfile_dumpUserProfile (p : UserProfile) :
    buildUserProfile (dumpUserProfile p) = p := by
  cases p with
  | mk n e ph loc li sk ex ed ce su =>
    simp [buildUserProfile, dumpUserProfile, List.map_map, Function.comp_def,
      buildExperience_dumpExperience, buildEducation_dumpEducation, Option.join]

theorem buildJobSearchParams_dumpJobSearchParams (p : JobSearchParams) :
    buildJobSearchParams (dumpJobSearchParams p) = p := by
  cases p with
  | mk st loc rw ft =>
    simp [buildJobSearchParams, dumpJobSearchParams, Option.join]

theorem projectItemsErrors_map_dump (path : List String) (i : Nat)
    (ps : List Project) : projectItemsErrors path i (ps.map dumpProject) = [] := by
  induction ps generalizing i with
  | nil => rfl
  | cons p ps ih => simp [projectItemsErrors, projectErrors, dumpProject, ih]

theorem experienceErrors_dump (path : List String) (e : Experience) :
    experienceErrors path (dumpExperience e) = [] := by
  simp [experienceErrors, dumpExperience, projectItemsErrors_map_dump]

theorem experienceItemsErrors_map_dump (path : List String) (i : Nat)
    (es : List Experience) :
    experienceItemsErrors path i (es.map dumpExperience) = [] := by
  induction es generalizing i with
  | nil => rfl
  | cons e es ih => simp [experienceItemsErrors, experienceErrors_dump, ih]

theorem educationErrors_dump (path : List String) (e : Education) :
    educationErrors path (dumpEducation e) = [] := by
  simp [educationErrors, dumpEducation]

theorem educationItemsErrors_map_dump (path : List String) (i : Nat)
    (es : List Education) :
    educationItemsErrors path i (es.map dumpEducation) = [] := by
  induction es generalizing i with
  | nil => rfl
  | cons e es ih => simp [educationItemsErrors, educationErrors_dump, ih]

theorem userProfileErrors_dump (path : List String) (p : UserProfile)
    (h : emailValid p.email = true) :
    userProfileErrors path (dumpUserProfile p) = [] := by
  simp [userProfileErrors, dumpUserProfile, h, experienceItemsErrors_map_dump,
    educationItemsErrors_map_dump]

theorem jobSearchParamsErrors_dump (path : List String) (p : JobSearchParams)
    (h1 : 1 ≤ p.results_wanted) (h2 : p.results_wanted ≤ 100) :
    jobSearchParamsErrors path (dumpJobSearchParams p) = [] := by
  have hn1 : ¬ p.results_wanted < 1 := by omega
  have hn2 : ¬ p.results_wanted > 100 := by omega
  simp [jobSearchParamsErrors, dumpJobSearchParams, hn1, hn2]

/-- A profile mapping that validates cleanly carries a present, valid email. -/
theorem userProfileErrors_nil_email (path : List String) (r : RawUserProfile)
    (h : userProfileErrors path r = []) :
    ∃ e, r.email = some e ∧ emailValid e = true := by
  cases he : r.email with
  | none =>
    exfalso
    unfold userProfileErrors at h
    rw [he] at h
    simp [List.append_eq_nil] at h
  | some e =>
    refine ⟨e, rfl, ?_⟩
    by_cases hv : emailValid e = true
    · exact hv
    · exfalso
      unfold userProfileErrors at h
      rw [he] at h
      simp [List.append_eq_nil, hv] at h

/-- A params mapping that validates cleanly builds an in-range
`results_wanted` (either the given value or the default 10). -/
theorem jobSearchParamsErrors_nil_range (path : List String)
    (r : RawJobSearchParams) (h : jobSearchParamsErrors path r = []) :
    1 ≤ (buildJobSearchParams r).results_wanted
    ∧ (buildJobSearchParams r).results_wanted ≤ 100 := by
  unfold jobSearchParamsErrors at h
  cases hrw : r.results_wanted with
  | none => norm_num [buildJobSearchParams, hrw]
  | some n =>
    rw [hrw] at h
    rcases List.append_eq_nil.mp h with ⟨h1, h2⟩
    have hn1 : ¬ n < 1 := by intro hc; rw [if_pos hc] at h1; simp at h1
    have hn2 : ¬ n > 100 := by intro hc; rw [if_pos hc] at h2; simp at h2
    simp only [buildJobSearchParams, hrw, Option.getD_some]
    omega

/-- A config mapping that validates cleanly has both sub-mappings present and
each validating cleanly. -/
theorem configErrors_nil (r : RawJobSearchConfig) (h : configErrors r = []) :
    ∃ up jp, r.user_profile = some up ∧ r.job_search_params = some jp
      ∧ userProfileErrors ["user_profile"] up = []
      ∧ jobSearchParamsErrors ["job_search_params"] jp = [] := by
  unfold configErrors at h
  rcases List.append_eq_nil.mp h with ⟨h1, h2⟩
  cases hup : r.user_profile with
  | none => rw [hup] at h1; simp at h1
  | some up =>
    cases hjp : r.job_search_params with
    | none => rw [hjp] at h2; simp at h2
    | some jp =>
      rw [hup] at h1
      rw [hjp] at h2
      exact ⟨up, jp, rfl, rfl, h1, h2⟩

/-! ## Claim theorems -/

/-- Claim C1: constructing `JobSearchParams` with `results_wanted = n` succeeds
exactly when `1 ≤ n ≤ 100`; out of range it fails with a non-empty validation
error, and a successful construction carries `n` itself — the value is never
clamped into range. -/
theorem c1_results_wanted_bounds (r : RawJobSearchParams) (n : Int)
    (h : r.results_wanted = some n) :
    (1 ≤ n ∧ n ≤ 100 →
      ∃ p, parseJobSearchParams r = .ok p ∧ p.results_wanted = n)
    ∧ (¬(1 ≤ n ∧ n ≤ 100) →
      ∃ es, parseJobSearchParams r = .error es ∧ es ≠ [])
    ∧ (∀ p, parseJobSearchParams r = .ok p → p.results_wanted = n) := by
  refine ⟨?_, ?_, ?_⟩
  · rintro ⟨h1, h2⟩
    have hn1 : ¬ n < 1 := by omega
    have hn2 : ¬ n > 100 := by omega
    refine ⟨buildJobSearchParams r, ?_, ?_⟩
    · simp [parseJobSearchParams, jobSearchParamsErrors, h, hn1, hn2]
    · simp [buildJobSearchParams, h]
  · intro hcon
    have hne : jobSearchParamsErrors [] r ≠ [] := by
      have : n < 1 ∨ n > 100 := by omega
      rcases this with h1 | h1 <;> simp [jobSearchParamsErrors, h, h1]
    exact ⟨jobSearchParamsErrors [] r, by simp [parseJobSearchParams, hne], hne⟩
  · intro p hp
    unfold parseJobSearchParams at hp
    split_ifs at hp
    injection hp with hp
    simp [← hp, buildJobSearchParams, h]

/-- Witness for C1 at `results_wanted = 50` (succeeds, value kept) and
`results_wanted = 150` (fails). -/
theorem c1_results_wanted_bounds_witness :
    (∃ p, parseJobSearchParams { emptyRawJobSearchParams with results_wanted := some 50 } = .ok p
        ∧ p.results_wanted = 50)
    ∧ (∃ es, parseJobSearchParams { emptyRawJobSearchParams with results_wanted := some 150 } = .error es
        ∧ es ≠ []) := by
  constructor
  · exact (c1_results_wanted_bounds _ 50 rfl).1 (by norm_num)
  · exact (c1_results_wanted_bounds _ 150 rfl).2.1 (by norm_num)

/-- Claim C2 counterexample: with `location = "Paris"` in the JSON profile and
an explicitly supplied empty-string `--location` flag, the merged mapping
keeps the JSON value — the pipeline receives "Paris", not the flag value "",
because the overwrite is guarded by Python truthiness (cli.py line 114). -/
theorem c2_counterexample :
    emptyLocationFlags.location = some ""
    ∧ (jobSearchMerge (.profile locJsonProfile) emptyLocationFlags).1.location
        = some (some "Paris")
    ∧ (jobSearchMerge (.profile locJsonProfile) emptyLocationFlags).1.location
        ≠ some (some "") := by
  exact ⟨rfl, by decide, by decide⟩

/-- Claim C2 (amended): when a key is present in the JSON document and also
supplied as an explicit flag with a non-empty (truthy) value, the flag value
wins — the base mapping is built from the JSON first and truthy flag values
are written over it afterwards.  A falsy (empty-string) flag value leaves the
JSON value in place. -/
theorem c2_flag_overrides_json (json : ProfileJsonInput) (f : CliFlags)
    (v : String) (hv : v ≠ "") :
    (f.location = some v →
      (jobSearchMerge json f).1.location = some (some v))
    ∧ (f.name = some v → (jobSearchMerge json f).1.name = some v)
    ∧ (f.search_location = some v →
      (jobSearchMerge json f).2.location = some v) := by
  refine ⟨?_, ?_, ?_⟩ <;> intro hflag <;>
    simp [jobSearchMerge, applyProfileFlags, applyParamFlags, setIfTruthy,
      setIfTruthyOpt, hflag, hv]

/-- Witness for C2: the `--location Berlin` flag overrides `"Paris"` from the
JSON profile. -/
theorem c2_flag_overrides_json_witness :
    ("Berlin" : String) ≠ ""
    ∧ ({ noFlags with location := some "Berlin" } : CliFlags).location = some "Berlin"
    ∧ (jobSearchMerge (.profile locJsonProfile)
        { noFlags with location := some "Berlin" }).1.location = some (some "Berlin") := by
  refine ⟨by decide, rfl, ?_⟩
  exact (c2_flag_overrides_json (.profile locJsonProfile) _ "Berlin" (by decide)).1 rfl

/-- Claim C9 counterexample: with `--results-wanted 0` and a JSON config whose
`job_search_params` carries `results_wanted = 50`, the constructed parameters
carry 50 — the JSON value does take effect, and the run does not get 10. -/
theorem c9_counterexample :
    zeroResultsFlags.results_wanted = 0
    ∧ fiftyResultsBase.results_wanted = some 50
    ∧ parseJobSearchParams (applyParamFlags fiftyResultsBase zeroResultsFlags)
        = .ok ⟨"Software Developer", "Remote", 50, none⟩
    ∧ (buildJobSearchParams (applyParamFlags fiftyResultsBase zeroResultsFlags)).results_wanted
        ≠ 10 := by
  exact ⟨rfl, rfl, by decide, by decide⟩

/-- Claim C9 (amended): the `--results-wanted` flag (default 10) is copied over
the JSON-derived mapping exactly when it is nonzero, so a nonzero flag always
determines the effective `results_wanted` and a JSON `results_wanted` is then
shadowed; when the flag is 0 the mapping keeps the JSON value, and if the JSON
supplied none, construction succeeds with the schema default 10 rather than
failing validation. -/
theorem c9_results_wanted_flag_precedence (base : RawJobSearchParams) (f : CliFlags) :
    (f.results_wanted ≠ 0 →
      (applyParamFlags base f).results_wanted = some f.results_wanted
      ∧ (buildJobSearchParams (applyParamFlags base f)).results_wanted = f.results_wanted)
    ∧ (f.results_wanted = 0 →
      (applyParamFlags base f).results_wanted = base.results_wanted)
    ∧ (f.results_wanted = 0 → base.results_wanted = none →
      parseJobSearchParams (applyParamFlags base f)
        = .ok (buildJobSearchParams (applyParamFlags base f))
      ∧ (buildJobSearchParams (applyParamFlags base f)).results_wanted = 10) := by
  refine ⟨?_, ?_, ?_⟩
  · intro h0
    constructor
    · simp [applyParamFlags, h0]
    · simp [buildJobSearchParams, applyParamFlags, h0]
  · intro h0
    simp [applyParamFlags, h0]
  · intro h0 hbase
    constructor
    · simp [parseJobSearchParams, jobSearchParamsErrors, applyParamFlags, h0, hbase]
    · simp [buildJobSearchParams, applyParamFlags, h0, hbase]

/-- Witness for C9: a nonzero flag (15) shadows the JSON value 50; with flag 0
and no JSON value, construction succeeds with 10. -/
theorem c9_results_wanted_flag_precedence_witness :
    (({ noFlags with results_wanted := 15 } : CliFlags).results_wanted ≠ 0
      ∧ (applyParamFlags fiftyResultsBase { noFlags with results_wanted := 15 }).results_wanted
          = some 15)
    ∧ (parseJobSearchParams (applyParamFlags emptyRawJobSearchParams zeroResultsFlags)
        = .ok (buildJobSearchParams (applyParamFlags emptyRawJobSearchParams zeroResultsFlags))
      ∧ (buildJobSearchParams (applyParamFlags emptyRawJobSearchParams zeroResultsFlags)).results_wanted
          = 10) := by
  constructor
  · exact ⟨by decide,
      ((c9_results_wanted_flag_precedence fiftyResultsBase _).1 (by decide)).1⟩
  · exact (c9_results_wanted_flag_precedence emptyRawJobSearchParams zeroResultsFlags).2.2
      rfl rfl

/-- Claim C3 counterexample: the mapping with an empty (present) `name`, a
valid email and `results_wanted = 200` produces exactly one validation error —
for `results_wanted` only.  An empty `name` is not a violation (the pydantic field
`name: str = Field(...)` requires presence, not non-emptiness), so no error
path for `name` is reported, contrary to the example given in the claim. -/
theorem c3_counterexample :
    emptyNameBadCountDoc.user_profile.map RawUserProfile.name = some (some "")
    ∧ configErrors emptyNameBadCountDoc =
        [⟨["job_search_params", "results_wanted"],
          "Input should be less than or equal to 100"⟩] := by
  exact ⟨rfl, by decide⟩

/-- Claim C3 (amended): when a raw config mapping violates several rules that
pydantic does check — e.g. a missing email and an out-of-range
`results_wanted` — a single `JobSearchConfig` construction reports every
violated field path with its message, and the CLI prints one line per
violation.  (An empty `name` is not a violation, and in the `job_search`
command the profile and the params are validated by two separate
constructions, so only the errors of the first failing construction are shown.) -/
theorem c3_all_errors_reported (r : RawJobSearchConfig) (up : RawUserProfile)
    (jp : RawJobSearchParams) (n : Int)
    (hup : r.user_profile = some up) (hjp : r.job_search_params = some jp)
    (hemail : up.email = none) (hrw : jp.results_wanted = some n) (hn : n > 100) :
    (⟨["user_profile", "email"], "Field required"⟩ : FieldError) ∈ configErrors r
    ∧ (⟨["job_search_params", "results_wanted"],
        "Input should be less than or equal to 100"⟩ : FieldError) ∈ configErrors r
    ∧ (echoedErrorLinesFromFile (configErrors r)).length = (configErrors r).length := by
  have hn1 : ¬ n < 1 := by omega
  refine ⟨?_, ?_, ?_⟩
  · simp [configErrors, hup, hjp, userProfileErrors, hemail, List.mem_append]
  · simp [configErrors, hup, hjp, jobSearchParamsErrors, hrw, hn, hn1, List.mem_append]
  · simp [echoedErrorLinesFromFile]

/-- Witness for C3 on a concrete document with a missing email and
`results_wanted = 200`: both field paths are reported and the CLI echoes one
line per error. -/
theorem c3_all_errors_reported_witness :
    (⟨["user_profile", "email"], "Field required"⟩ : FieldError)
        ∈ configErrors missingEmailBadCountDoc
    ∧ (⟨["job_search_params", "results_wanted"],
        "Input should be less than or equal to 100"⟩ : FieldError)
        ∈ configErrors missingEmailBadCountDoc
    ∧ (echoedErrorLinesFromFile (configErrors missingEmailBadCountDoc)).length
        = (configErrors missingEmailBadCountDoc).length :=
  c3_all_errors_reported missingEmailBadCountDoc
    { emptyRawUserProfile with name := some "A" }
    { emptyRawJobSearchParams with results_wanted := some 200 }
    200 rfl rfl rfl rfl (by norm_num)

/-- Claim C4: both tools wrap their whole `_run` body in try/except.  A raised
collaborator exception `e` becomes the returned string result (the fixed
prefix plus the exception text); the result type of the embedded `_run` is
`String`, so no exception propagates out of either tool. -/
theorem c4_tool_exceptions_caught :
    (∀ e : String, jobSpyToolRun (.error e) = "Error searching for jobs: " ++ e)
    ∧ (∀ (u : ResumeUserInfo) (jr fn : String)
        (save : List String → Except String Unit),
        resumeGeneratorRun u jr fn save =
          match save (resumeDocParagraphs u) with
          | .ok _ => resumeSuccessMessage fn
          | .error e => "Error generating resume: " ++ e) := by
  refine ⟨fun e => rfl, fun u jr fn save => ?_⟩
  unfold resumeGeneratorRun resumeGeneratorBody
  cases h : save (resumeDocParagraphs u) <;>
    simp [h, Except.bind, bind, Except.pure, pure]

/-- Claim C5: an empty scrape result yields exactly the fixed literal message,
and the pipeline still runs the analysis and generation steps (the steps are
total: the final state carries the crew text and the resume path). -/
theorem c5_no_jobs_message (s : JobSearchState) (r : String) :
    jobSpyToolRun (.ok []) = "No jobs found matching the search criteria."
    ∧ (runJobSearchFlow r s).skills_analysis = r
    ∧ (runJobSearchFlow r s).resume_path = "personalized_resume.docx" :=
  ⟨rfl, rfl, rfl⟩

/-- Claim C6: the description entry of the digest is the first 500 characters plus
an ellipsis marker when the description exceeds 500 characters, the
description unchanged when present and short enough, and the placeholder
"N/A" when absent. -/
theorem c6_description_truncation (s : String) :
    (s.length > 500 →
      truncatedDescription (some s) = String.mk (s.toList.take 500) ++ "...")
    ∧ (s.length ≤ 500 → truncatedDescription (some s) = s)
    ∧ truncatedDescription none = "N/A" := by
  refine ⟨?_, ?_, rfl⟩
  · intro h
    simp [truncatedDescription, h]
  · intro h
    simp [truncatedDescription, Nat.not_lt.mpr h]

set_option maxRecDepth 10000 in
/-- Witness for C6 at a 501-character description (truncated with ellipsis)
and a short one (unchanged). -/
theorem c6_description_truncation_witness :
    ((String.mk (List.replicate 501 'a')).length > 500
      ∧ truncatedDescription (some (String.mk (List.replicate 501 'a')))
          = String.mk ((String.mk (List.replicate 501 'a')).toList.take 500) ++ "...")
    ∧ (("hi" : String).length ≤ 500 ∧ truncatedDescription (some "hi") = "hi") := by
  constructor
  · have h : (String.mk (List.replicate 501 'a')).length > 500 := by decide
    exact ⟨h, (c6_description_truncation _).1 h⟩
  · have h : ("hi" : String).length ≤ 500 := by decide
    exact ⟨h, (c6_description_truncation _).2.1 h⟩

/-- Claim C8 counterexample: after the search/analyze step runs on the
collected initial state with crew digest "42 listings", `job_listings` still
holds its initial empty value — the step writes `skills_analysis` only and
does not set `job_listings`, and no later step does either. -/
theorem c8_counterexample :
    (search_and_analyze_jobs "42 listings" (collect_user_info initialJobSearchState)).job_listings
        = ""
    ∧ (search_and_analyze_jobs "42 listings" (collect_user_info initialJobSearchState)).job_listings
        ≠ "42 listings"
    ∧ (runJobSearchFlow "42 listings" initialJobSearchState).job_listings = "" := by
  exact ⟨by decide, by decide, by decide⟩

/-- Claim C8 (amended): each step writes only its own fields — collect touches
only `user_profile`/`job_search_params`, search/analyze sets only
`skills_analysis` (never `job_listings`, which no step writes), generation
sets only `resume_path`, finalize writes nothing; `user_profile` and
`job_search_params` are unchanged after the collect step. -/
theorem c8_step_frame (s : JobSearchState) (r : String) :
    ((collect_user_info s).job_listings = s.job_listings
      ∧ (collect_user_info s).skills_analysis = s.skills_analysis
      ∧ (collect_user_info s).resume_path = s.resume_path)
    ∧ ((search_and_analyze_jobs r s).skills_analysis = r
      ∧ (search_and_analyze_jobs r s).user_profile = s.user_profile
      ∧ (search_and_analyze_jobs r s).job_search_params = s.job_search_params
      ∧ (search_and_analyze_jobs r s).job_listings = s.job_listings
      ∧ (search_and_analyze_jobs r s).resume_path = s.resume_path)
    ∧ ((generate_personalized_resume s).resume_path = "personalized_resume.docx"
      ∧ (generate_personalized_resume s).user_profile = s.user_profile
      ∧ (generate_personalized_resume s).job_search_params = s.job_search_params
      ∧ (generate_personalized_resume s).job_listings = s.job_listings
      ∧ (generate_personalized_resume s).skills_analysis = s.skills_analysis)
    ∧ finalize_results s = s
    ∧ ((runJobSearchFlow r s).user_profile = (collect_user_info s).user_profile
      ∧ (runJobSearchFlow r s).job_search_params = (collect_user_info s).job_search_params
      ∧ (runJobSearchFlow r s).job_listings = s.job_listings) := by
  refine ⟨⟨?_, ?_, ?_⟩, ⟨rfl, rfl, rfl, rfl, rfl⟩, ⟨rfl, rfl, rfl, rfl, rfl⟩,
    rfl, rfl, rfl, ?_⟩
  · unfold collect_user_info collectParamsDefault collectProfileDefault
    split_ifs <;> rfl
  · unfold collect_user_info collectParamsDefault collectProfileDefault
    split_ifs <;> rfl
  · unfold collect_user_info collectParamsDefault collectProfileDefault
    split_ifs <;> rfl
  · unfold runJobSearchFlow finalize_results generate_personalized_resume
      search_and_analyze_jobs collect_user_info collectParamsDefault
      collectProfileDefault
    split_ifs <;> rfl

/-- Claim C10: the generation step records the constant path
"personalized_resume.docx" unconditionally — it does not look at any result of
the resume tool (its embedding takes no tool outcome at all), so the path is
set on every run that reaches the step. -/
theorem c10_resume_path_constant (s : JobSearchState) (r : String) :
    (generate_personalized_resume s).resume_path = "personalized_resume.docx"
    ∧ (runJobSearchFlow r s).resume_path = "personalized_resume.docx" :=
  ⟨rfl, rfl⟩

/-- Claim C7: for every raw `JobSearchConfig` document that parses to model
`c`, serializing `c` (model_dump emits every field, absent optionals as null)
and parsing again yields exactly `c` — every field is preserved, including
optional fields absent from the input (they re-enter as null and rebuild to
the same absent value). -/
theorem c7_config_roundtrip (raw : RawJobSearchConfig) (c : JobSearchConfig)
    (h : parseConfig raw = .ok c) :
    parseConfig (dumpConfig c) = .ok c := by
  unfold parseConfig at h
  split_ifs at h with hc
  injection h with hbc
  obtain ⟨up, jp, hup, hjp, hupe, hjpe⟩ := configErrors_nil raw hc
  obtain ⟨e, he, hev⟩ := userProfileErrors_nil_email _ up hupe
  have hrange := jobSearchParamsErrors_nil_range _ jp hjpe
  have hcup : c.user_profile = buildUserProfile up := by
    rw [← hbc]; simp [buildConfig, hup]
  have hcjp : c.job_search_params = buildJobSearchParams jp := by
    rw [← hbc]; simp [buildConfig, hjp]
  have hemail : emailValid c.user_profile.email = true := by
    rw [hcup]
    simp only [buildUserProfile, he, Option.getD_some]
    exact hev
  have h1 : 1 ≤ c.job_search_params.results_wanted := by rw [hcjp]; exact hrange.1
  have h2 : c.job_search_params.results_wanted ≤ 100 := by rw [hcjp]; exact hrange.2
  have hde : configErrors (dumpConfig c) = [] := by
    simp [configErrors, dumpConfig, userProfileErrors_dump _ _ hemail,
      jobSearchParamsErrors_dump _ _ h1 h2]
  unfold parseConfig
  rw [if_pos hde]
  simp [buildConfig, dumpConfig, buildUserProfile_dumpUserProfile,
    buildJobSearchParams_dumpJobSearchParams]

/-- Witness for C7 on a minimal valid document: it parses to
`minimalConfig`, and the serialized model parses back to the same model. -/
theorem c7_config_roundtrip_witness :
    parseConfig minimalConfigDoc = .ok minimalConfig
    ∧ parseConfig (dumpConfig minimalConfig) = .ok minimalConfig :=
  ⟨by decide, c7_config_roundtrip minimalConfigDoc minimalConfig (by decide)⟩

end JobSearch

